import Mathlib

/-!
Verification development for the vibe-browser relay server (`skill/index.ts`)
and the Chromium extension services (`tab.ts` / `TabManager.ts` /
`ConnectionManager.ts` / `CDPRouter.ts` / background wiring).

The relay is a single-threaded Bun process; all mutation of its shared state
happens in serialized reactions to HTTP requests, WebSocket events and timer
callbacks.  We therefore embed each reaction as a pure function from the
relay's state to a new state plus a list of observable outputs (promise
resolutions, WebSocket sends, SSE deliveries, socket closes).  JSON values
are embedded as an inductive type; JavaScript's `undefined` (an absent
property) is represented by `Option`.
-/

namespace Vibe

/-- JSON values.  Objects are association lists of fields (parsed JSON has no
duplicate keys); JavaScript `undefined` is represented externally as
`Option Json := none`, never as a `Json` constructor. -/
inductive Json where
  | null
  | bool (b : Bool)
  | num (n : Int)
  | str (s : String)
  | arr (elems : List Json)
  | obj (fields : List (String × Json))
deriving Repr

/-- Property read `v[key]`: defined fields of objects; everything else
(including array index/`length` reads, which the relay never performs with
these keys) is `undefined`. -/
def Json.getField : Json → String → Option Json
  | .obj fields, key => fields.lookup key
  | _, _ => none

/-- `isRecord(v)`: `typeof v === "object" && v !== null`.  In JavaScript this
is also true of arrays. -/
def Json.isRecord : Json → Bool
  | .obj _ => true
  | .arr _ => true
  | _ => false

/-- `typeof v === "number"` for a property value (`none` = `undefined`). -/
def isNumberV : Option Json → Bool
  | some (.num _) => true
  | _ => false

/-- `typeof v === "string"` for a property value. -/
def isStringV : Option Json → Bool
  | some (.str _) => true
  | _ => false

/-- `isRecord(v)` lifted to a property value. -/
def isRecordV : Option Json → Bool
  | some j => j.isRecord
  | none => false

/-- `v === undefined || typeof v === "string"`. -/
def isUndefOrStringV : Option Json → Bool
  | none => true
  | some (.str _) => true
  | _ => false

/-- `v === undefined || isRecord(v)`. -/
def isUndefOrRecordV : Option Json → Bool
  | none => true
  | some j => j.isRecord

/-- `v === lit` for a property value and a string literal. -/
def strEqV (v : Option Json) (lit : String) : Bool :=
  match v with
  | some (.str s) => s == lit
  | _ => false

/-- `isExtensionMethod(v)`: `v === "cdp" || v === "tab"`. -/
def isExtensionMethodV : Option Json → Bool
  | some (.str s) => s == "cdp" || s == "tab"
  | _ => false

/-- The two extension command methods, `"cdp" | "tab"`. -/
inductive ExtensionMethod where
  | cdp
  | tab
deriving Repr, DecidableEq

/-- Decode an `ExtensionMethod` from a property value (defined exactly when
`isExtensionMethodV` holds). -/
def toExtensionMethod? : Option Json → Option ExtensionMethod
  | some (.str s) =>
      if s == "cdp" then some .cdp
      else if s == "tab" then some .tab
      else none
  | _ => none

/-- Inner `params` of an extension command:
`{ method: string, params?: record, targetId?: string }`. -/
structure CommandParams where
  method : String
  params : Option Json := none
  targetId : Option String := none
deriving Repr

/-- `ExtensionCommandMessage`: one command bridged to the extension over WS. -/
structure ExtensionCommandMessage where
  id : Int
  method : ExtensionMethod
  params : CommandParams
deriving Repr

/-- `ExtensionResponseMessage`: `{ id, result?, error? }`. -/
structure ExtensionResponseMessage where
  id : Int
  result : Option Json := none
  error : Option String := none
deriving Repr

/-- `isExtensionCommandMessage(v)` from `skill/index.ts`. -/
def isExtensionCommandMessage (v : Json) : Bool :=
  v.isRecord &&
  isNumberV (v.getField "id") &&
  isExtensionMethodV (v.getField "method") &&
  (match v.getField "params" with
   | some p =>
       p.isRecord &&
       isStringV (p.getField "method") &&
       isUndefOrRecordV (p.getField "params") &&
       isUndefOrStringV (p.getField "targetId")
   | none => false)

/-- `isExtensionResponseMessage(v)` from `skill/index.ts`. -/
def isExtensionResponseMessage (v : Json) : Bool :=
  v.isRecord &&
  isNumberV (v.getField "id") &&
  isUndefOrStringV (v.getField "error")

/-- `isExtensionEventMessage(v)` from `skill/index.ts`. -/
def isExtensionEventMessage (v : Json) : Bool :=
  v.isRecord &&
  strEqV (v.getField "method") "forwardCDPEvent" &&
  (match v.getField "params" with
   | some p =>
       p.isRecord &&
       isStringV (p.getField "method") &&
       isUndefOrRecordV (p.getField "params") &&
       isUndefOrStringV (p.getField "targetId")
   | none => false)

/-- `v.every(a => typeof a === "string")` over a JSON array value. -/
def allStrings : List Json → Bool
  | [] => true
  | .str _ :: rest => allStrings rest
  | _ => false

/-- `isExtensionLogMessage(v)` from `skill/index.ts`. -/
def isExtensionLogMessage (v : Json) : Bool :=
  v.isRecord &&
  strEqV (v.getField "method") "log" &&
  (match v.getField "params" with
   | some p =>
       p.isRecord &&
       isStringV (p.getField "level") &&
       (match p.getField "args" with
        | some (.arr xs) => allStrings xs
        | _ => false)
   | none => false)

/-- `isClientEnvelope(v)` from `skill/index.ts`. -/
def isClientEnvelope (v : Json) : Bool :=
  v.isRecord &&
  (if strEqV (v.getField "type") "ping" then true
   else if !strEqV (v.getField "type") "command" then false
   else
     (match v.getField "id" with
      | none => true
      | some (.num _) => true
      | some _ => false) &&
     isExtensionMethodV (v.getField "method") &&
     (match v.getField "params" with
      | some p => p.isRecord && isStringV (p.getField "method")
      | none => false))

/-! ### Relay configuration (defaults, no environment overrides) -/

/-- `parsePositiveInt(rawValue, fallback)` with `rawValue` absent yields the
fallback (`Number(undefined)` is `NaN`). -/
def REQUEST_TIMEOUT_MS : Nat := 15000

/-- `Math.min(3000, REQUEST_TIMEOUT_MS)` default. -/
def HEALTH_PROBE_TIMEOUT_MS : Nat := min 3000 REQUEST_TIMEOUT_MS

/-! ### Relay state -/

/-- One entry of `state.pending`: the resolve callback is modeled as the
`RelayOutput.resolve` output emitted when the entry is fulfilled, so the
stored data is just the timeout handle. -/
structure PendingEntry where
  timeoutId : Nat
deriving Repr, DecidableEq

/-- What a pending-command timeout timer will do when it fires (captured by
the `setTimeout` closure in `sendCommandToExtension`). -/
structure TimerInfo where
  cmdId : Int
  timeoutMs : Nat
  includeBlockedHint : Bool
deriving Repr, DecidableEq

/-- The relay's module-level `state`, plus the ambient socket bookkeeping
(`openSockets` models which server sockets have `readyState === OPEN`, and
`nextTimer` is the source of `setTimeout`/`setInterval` handles). -/
structure RelayState where
  extension : Option Nat := none
  openSockets : List Nat := []
  nextId : Int := 1
  pending : List (Int × PendingEntry) := []
  timers : List (Nat × TimerInfo) := []
  nextTimer : Nat := 0
  extensionKeepaliveId : Option Nat := none
  sseClients : List Nat := []
deriving Repr

/-- `state.extension?.readyState === WebSocket.OPEN`. -/
def RelayState.extensionOpen (st : RelayState) : Bool :=
  match st.extension with
  | some s => st.openSockets.contains s
  | none => false

/-- SSE frames the relay broadcasts (payload shapes from `skill/index.ts`). -/
inductive SseMessage where
  | status (extensionConnected : Bool)
  | orphanResponse (result : Json) (error : Json)
  | extensionEvent (raw : Json)
  | unknownFromExtension (raw : Option Json)
deriving Repr

/-- Observable effects of one relay reaction. -/
inductive RelayOutput where
  | resolve (id : Int) (msg : ExtensionResponseMessage)
  | wsSend (sock : Nat) (cmd : ExtensionCommandMessage)
  | sseDeliver (client : Nat) (msg : SseMessage)
  | closeSocket (sock : Nat)
deriving Repr

/-- Remove every binding of key `k` (the model's `Map.delete`; keys are
unique in any reachable state). -/
def eraseKey {α β : Type} [BEq α] (k : α) (l : List (α × β)) : List (α × β) :=
  l.filter (fun kv => !(kv.1 == k))

/-- `sseBroadcast(message)`: enqueue the frame to every live SSE client. -/
def sseBroadcast (st : RelayState) (msg : SseMessage) : List RelayOutput :=
  st.sseClients.map (fun c => .sseDeliver c msg)

/-- `makeCommand(partial)`: always generates a fresh id from `state.nextId++`;
a caller-supplied `partial.id` is overwritten by the spread and is therefore
an ignored argument here. -/
def makeCommand (st : RelayState) (_callerId : Option Int)
    (method : ExtensionMethod) (params : CommandParams) :
    RelayState × ExtensionCommandMessage :=
  ({ st with nextId := st.nextId + 1 },
   { id := st.nextId, method := method, params := params })

/-- Extract the `{method, params?, targetId?}` fields the relay forwards from
a `params` record; non-record `params.params` and non-string
`params.targetId` are dropped exactly as in the untyped third branch of
`parseHttpCommandBody` (under the typed branches' guards this coincides with
passing the record through). -/
def extractCommandParams (p : Json) : CommandParams :=
  { method := match p.getField "method" with
      | some (.str s) => s
      | _ => ""
    params := match p.getField "params" with
      | some pp => if pp.isRecord then some pp else none
      | none => none
    targetId := match p.getField "targetId" with
      | some (.str s) => some s
      | _ => none }

/-- `parseHttpCommandBody(body)`: accepts a full `ExtensionCommandMessage`
shape, a client envelope, or a plain `{method, params}` body; in every branch
the command id comes from `makeCommand` and any incoming id is ignored. -/
def parseHttpCommandBody (st : RelayState) (body : Json) :
    RelayState × Option ExtensionCommandMessage :=
  if !body.isRecord then (st, none)
  else if isExtensionCommandMessage body then
    match toExtensionMethod? (body.getField "method"), body.getField "params" with
    | some m, some p =>
        let (st', cmd) := makeCommand st none m (extractCommandParams p)
        (st', some cmd)
    | _, _ => (st, none)
  else if isClientEnvelope body then
    if !strEqV (body.getField "type") "command" then (st, none)
    else
      match toExtensionMethod? (body.getField "method"), body.getField "params" with
      | some m, some p =>
          let (st', cmd) := makeCommand st none m (extractCommandParams p)
          (st', some cmd)
      | _, _ => (st, none)
  else
    match toExtensionMethod? (body.getField "method") with
    | none => (st, none)
    | some m =>
      match body.getField "params" with
      | some p =>
          if p.isRecord && isStringV (p.getField "method") then
            let (st', cmd) := makeCommand st none m (extractCommandParams p)
            (st', some cmd)
          else (st, none)
      | none => (st, none)

/-! ### Error strings and status mapping -/

def TIMEOUT_ERROR_PREFIX : String := "Timeout after"

def BLOCKED_EXTENSION_HINT : String :=
  "The browser extension may be blocked. Manually refresh the extension and retry."

def NOT_CONNECTED_ERROR : String := "Extension is not connected"

/-- `makeTimeoutError(timeoutMs, includeBlockedHint)`. -/
def makeTimeoutError (timeoutMs : Nat) (includeBlockedHint : Bool) : String :=
  let base := TIMEOUT_ERROR_PREFIX ++ " " ++ toString timeoutMs ++ "ms"
  if !includeBlockedHint then base else base ++ ". " ++ BLOCKED_EXTENSION_HINT

/-- `isTimeoutError(error)`: a string starting with the timeout prefix
(`error.startsWith(TIMEOUT_ERROR_PREFIX)`, expressed on character lists so
that concrete instances evaluate in the kernel). -/
def isTimeoutError : Option String → Bool
  | some e => TIMEOUT_ERROR_PREFIX.data.isPrefixOf e.data
  | none => false

/-- JavaScript truthiness of `error: string | undefined` (`undefined` and
`""` are falsy). -/
def errTruthy : Option String → Bool
  | none => false
  | some s => !(s == "")

/-- `commandErrorToStatus(error)`: `!error → 200`, not-connected → 503,
timeout prefix → 504, anything else → 502. -/
def commandErrorToStatus (error : Option String) : Nat :=
  if !errTruthy error then 200
  else if error == some NOT_CONNECTED_ERROR then 503
  else if isTimeoutError error then 504
  else 502

/-! ### Pending-table operations -/

/-- `respondPending(pendingId, msg)`: look up the entry; if present, cancel
its timer, delete it, and fulfil the waiting caller with `msg`. -/
def respondPending (st : RelayState) (pendingId : Int)
    (msg : ExtensionResponseMessage) : RelayState × List RelayOutput :=
  match st.pending.lookup pendingId with
  | none => (st, [])
  | some entry =>
      ({ st with
          timers := eraseKey entry.timeoutId st.timers,
          pending := eraseKey pendingId st.pending },
       [.resolve pendingId msg])

/-- `failAllPending(error)`: cancel every pending entry's timer, remove the
entry, and fulfil its caller with `{id, error}`. -/
def failAllPending (st : RelayState) (error : String) :
    RelayState × List RelayOutput :=
  ({ st with
      pending := [],
      timers := st.timers.filter
        (fun t => !(st.pending.any (fun kv => kv.2.timeoutId == t.1))) },
   st.pending.map (fun kv => .resolve kv.1 { id := kv.1, error := some error }))

/-- `sendCommandToExtension(command, timeoutMs, options)`: when no open
extension socket exists, resolve immediately with the not-connected error,
registering nothing; otherwise create the timeout timer, register the
pending entry, and send the command frame. -/
def sendCommandToExtension (st : RelayState) (command : ExtensionCommandMessage)
    (timeoutMs : Nat) (includeBlockedHint : Bool) :
    RelayState × List RelayOutput :=
  match st.extension with
  | none =>
      (st, [.resolve command.id { id := command.id, error := some NOT_CONNECTED_ERROR }])
  | some ext =>
      if !st.openSockets.contains ext then
        (st, [.resolve command.id { id := command.id, error := some NOT_CONNECTED_ERROR }])
      else
        let tid := st.nextTimer
        ({ st with
            nextTimer := tid + 1,
            timers := (tid, ⟨command.id, timeoutMs, includeBlockedHint⟩) :: st.timers,
            pending := (command.id, ⟨tid⟩) :: st.pending },
         [.wsSend ext command])

/-- Firing of a pending-command timeout timer: the `setTimeout` callback
calls `respondPending` with the synthetic timeout error (a cancelled timer
never fires — it is absent from `timers`). -/
def fireTimeout (st : RelayState) (tid : Nat) : RelayState × List RelayOutput :=
  match st.timers.lookup tid with
  | none => (st, [])
  | some info =>
      respondPending { st with timers := eraseKey tid st.timers } info.cmdId
        { id := info.cmdId,
          error := some (makeTimeoutError info.timeoutMs info.includeBlockedHint) }

/-! ### WebSocket handlers (extension role) -/

/-- `websocket.open`: if a currently-open extension socket exists, fail all
pending commands, close and supersede it; then install the new socket,
restart the keepalive interval, and broadcast a connected status. -/
def handleWsOpen (st : RelayState) (ws : Nat) : RelayState × List RelayOutput :=
  let (st1, outs1) :=
    match st.extension with
    | some old =>
        if st.openSockets.contains old then
          let (s, o) := failAllPending st
            "Extension reconnected; previous in-flight commands were canceled."
          ({ s with openSockets := s.openSockets.erase old },
           o ++ [RelayOutput.closeSocket old])
        else (st, [])
    | none => (st, [])
  let st2 := { st1 with
      extension := some ws,
      extensionKeepaliveId := some st1.nextTimer,
      nextTimer := st1.nextTimer + 1 }
  (st2, outs1 ++ sseBroadcast st2 (.status true))

/-- `websocket.close`: a close from a replaced (stale) socket is ignored;
a close of the current socket clears the reference, stops the keepalive,
fails every pending command with the disconnection error, and broadcasts a
disconnected status. -/
def handleWsClose (st : RelayState) (ws : Nat) : RelayState × List RelayOutput :=
  let st0 := { st with openSockets := st.openSockets.erase ws }
  if st.extension ≠ some ws then (st0, [])
  else
    let st1 := { st0 with extension := none, extensionKeepaliveId := none }
    let (st2, outs) := failAllPending st1
      "Extension disconnected before command completed."
    (st2, outs ++ sseBroadcast st2 (.status false))

/-- `id` field of a guarded response frame. -/
def jsonIdOf (p : Json) : Int :=
  match p.getField "id" with
  | some (.num n) => n
  | _ => 0

/-- `error` field of a guarded response frame (`undefined` or a string). -/
def jsonErrOf (p : Json) : Option String :=
  match p.getField "error" with
  | some (.str s) => some s
  | _ => none

/-- `websocket.message` for the extension role, after `safeJsonParse`
(`none` = unparseable frame, `JSON.parse` threw): a response frame with a
pending id fulfils it; a response frame with no pending entry is broadcast
as an orphan; event/log frames are broadcast raw; anything else is broadcast
as unknown. -/
def handleExtensionMessage (st : RelayState) (parsed : Option Json) :
    RelayState × List RelayOutput :=
  match parsed with
  | some p =>
      if isExtensionResponseMessage p then
        if (st.pending.lookup (jsonIdOf p)).isSome then
          respondPending st (jsonIdOf p)
            { id := jsonIdOf p, result := p.getField "result", error := jsonErrOf p }
        else
          (st, sseBroadcast st (.orphanResponse
            ((p.getField "result").getD Json.null)
            (((jsonErrOf p).map Json.str).getD Json.null)))
      else if isExtensionEventMessage p || isExtensionLogMessage p then
        (st, sseBroadcast st (.extensionEvent p))
      else
        (st, sseBroadcast st (.unknownFromExtension (some p)))
  | none => (st, sseBroadcast st (.unknownFromExtension none))

/-! ### HTTP endpoints -/

/-- Body and status of the `/command` response once the bridged command's
promise resolved with `msg` (`handleHttpCommand`): always the
`{ok, result, error}` shape, status from `commandErrorToStatus`. -/
def httpCommandReply (msg : ExtensionResponseMessage) : Nat × Json :=
  (commandErrorToStatus msg.error,
   .obj [("ok", .bool (!errTruthy msg.error)),
         ("result", msg.result.getD Json.null),
         ("error", ((msg.error.map Json.str).getD Json.null))])

/-- The dispatch part of `handleHttpCommand`: parse the body (any caller id
discarded), and if a command was recognized, bridge it with the general
timeout tier and the blocked-extension hint enabled. -/
def handleHttpCommandStep (st : RelayState) (body : Json) :
    RelayState × Option ExtensionCommandMessage × List RelayOutput :=
  match parseHttpCommandBody st body with
  | (st', none) => (st', none, [])
  | (st', some cmd) =>
      let (st'', outs) := sendCommandToExtension st' cmd REQUEST_TIMEOUT_MS true
      (st'', some cmd, outs)

/-- Fold of `parseHttpCommandBody` over a sequence of `/command` bodies,
collecting the commands the relay actually dispatched. -/
def dispatchAll (st : RelayState) (bodies : List Json) :
    RelayState × List ExtensionCommandMessage :=
  match bodies with
  | [] => (st, [])
  | b :: rest =>
      let (st1, c?) := parseHttpCommandBody st b
      let (st2, cmds) := dispatchAll st1 rest
      (st2, (match c? with | some c => [c] | none => []) ++ cmds)

/-! ### Health check -/

/-- Classification produced by `runActiveTargetHealthProbe` from the probe
command's resolved response. -/
structure HealthProbe where
  ok : Bool
  browserResponsive : Bool
  browserBlocked : Bool
  message : String
deriving Repr, DecidableEq

/-- The active-target check of `runActiveTargetHealthProbe`:
`const targetId = isRecord(response.result) ? response.result.targetId : null`
followed by `typeof targetId === "string" && targetId.trim().length > 0`. -/
def healthProbeTargetOk (result : Option Json) : Bool :=
  match result with
  | some r =>
      r.isRecord &&
      (match r.getField "targetId" with
       | some (.str s) => !(s.trim == "")
       | _ => false)
  | none => false

/-- The classification logic of `runActiveTargetHealthProbe`: a truthy error
is a failure, blocked exactly when it is a timeout error; otherwise the
result must be a record with a non-blank string `targetId`. -/
def classifyHealthProbe (resp : ExtensionResponseMessage) : HealthProbe :=
  if errTruthy resp.error then
    let blocked := isTimeoutError resp.error
    { ok := false, browserResponsive := false, browserBlocked := blocked,
      message :=
        if blocked then (resp.error.getD "") ++ ". " ++ BLOCKED_EXTENSION_HINT
        else resp.error.getD "" }
  else
    let good := healthProbeTargetOk resp.result
    if good then
      { ok := true, browserResponsive := true, browserBlocked := false,
        message := "tab.getActiveTarget succeeded." }
    else
      { ok := false, browserResponsive := false, browserBlocked := false,
        message := "tab.getActiveTarget returned no active target. Keep a normal tab focused and retry." }

/-- The `/health` JSON payload (fields of the object literal in
`handleHealth`; `none` in the `Option Bool` fields is JSON `null`). -/
structure HealthPayload where
  status : Nat
  ok : Bool
  relayReachable : Bool
  extensionConnected : Bool
  browserResponsive : Option Bool
  browserBlocked : Option Bool
  probeOk : Bool
  probeTimeoutMs : Nat
  probeMessage : String
  action : Option String
deriving Repr, DecidableEq

/-- `GET /health`: when the extension socket is not open the probe is
skipped; otherwise the active-target probe is issued and its resolved
response (`probeResponse`) classified. -/
def handleHealth (st : RelayState) (probeResponse : ExtensionResponseMessage) :
    HealthPayload :=
  if !st.extensionOpen then
    { status := 503, ok := false, relayReachable := true,
      extensionConnected := false,
      browserResponsive := none, browserBlocked := none,
      probeOk := false, probeTimeoutMs := HEALTH_PROBE_TIMEOUT_MS,
      probeMessage := "Skipped because extension is not connected.",
      action := some "Open the extension popup, switch it to Active, then retry." }
  else
    let probe := classifyHealthProbe probeResponse
    { status := if probe.ok then 200 else 503, ok := probe.ok,
      relayReachable := true, extensionConnected := true,
      browserResponsive := some probe.browserResponsive,
      browserBlocked := some probe.browserBlocked,
      probeOk := probe.ok, probeTimeoutMs := HEALTH_PROBE_TIMEOUT_MS,
      probeMessage := probe.message,
      action :=
        if probe.browserBlocked then
          some "Browser extension appears blocked. Manually refresh the extension, then retry."
        else if probe.ok then none
        else some "Keep a normal browser tab focused, then retry." }

/-- The dispatch part of `/health` when the extension is open: the probe
command `tab.getActiveTarget` is built by `makeCommand` and bridged with the
short probe timeout tier and no blocked hint.  When the socket is not open
nothing is dispatched. -/
def handleHealthStep (st : RelayState) :
    RelayState × Option ExtensionCommandMessage × List RelayOutput :=
  if !st.extensionOpen then (st, none, [])
  else
    let (st1, cmd) := makeCommand st none .tab { method := "tab.getActiveTarget" }
    let (st2, outs) := sendCommandToExtension st1 cmd HEALTH_PROBE_TIMEOUT_MS false
    (st2, some cmd, outs)

/-! ### Extension side: tab registry (`TabManager.ts`)

Commands arriving from the relay are processed by a single sequential
`Stream.runForEach` fiber in the background script, so each `handleCommand`
runs to completion before the next starts; every registry operation is
therefore embedded as one atomic step. -/

/-- `TabState` (`cdp.ts`). -/
inductive TabState where
  | connecting
  | connected
  | error
deriving Repr, DecidableEq

/-- `TabInfo` as used by `TabManager.ts` (`sessionId`/`targetId` populated by
`attach`). -/
structure TabInfo where
  sessionId : Option String := none
  targetId : Option String := none
  state : TabState
deriving Repr, DecidableEq

/-- `TargetInfo` returned by the debugger's `Target.getTargetInfo`. -/
structure TargetInfo where
  targetId : String
  type : String := ""
  title : String := ""
  url : String := ""
  attached : Bool := false
deriving Repr, DecidableEq

/-- The tab registry's state: `tabsRef` (tabId → TabInfo), `childSessionsRef`
(child sessionId → parent tabId), `nextSessionIdRef`. -/
structure TabRegistryState where
  tabs : List (Int × TabInfo) := []
  childSessions : List (String × Int) := []
  nextSessionId : Nat := 1
deriving Repr, DecidableEq

/-- Externally observable effects of a registry step (Chrome debugger calls
and `forwardCDPEvent` frames sent to the relay; event payloads beyond the
session id are not needed by any claim and are elided). -/
inductive ExtOutput where
  | debuggerAttach (tabId : Int)
  | debuggerCommand (tabId : Int) (method : String)
  | debuggerDetach (tabId : Int)
  | forwardEvent (method : String) (sessionId : Option String)
deriving Repr, DecidableEq

/-- `setTab` (`Ref.update` inserting/overwriting one binding). -/
def setTab (tabs : List (Int × TabInfo)) (tabId : Int) (info : TabInfo) :
    List (Int × TabInfo) :=
  (tabId, info) :: eraseKey tabId tabs

/-- `TabRegistry.attach(tabId)` (`TabManager.ts`): attach the debugger, read
the target info (`oracle` is the debugger's reply), mint `pw-tab-<n>`, store
the tab and forward `Target.attachedToTarget`. -/
def tabAttach (s : TabRegistryState) (tabId : Int) (oracle : TargetInfo) :
    TabRegistryState × String × List ExtOutput :=
  let n := s.nextSessionId
  let sessionId := "pw-tab-" ++ toString n
  ({ s with
      nextSessionId := n + 1,
      tabs := setTab s.tabs tabId
        { sessionId := some sessionId,
          targetId := some oracle.targetId,
          state := .connected } },
   sessionId,
   [.debuggerAttach tabId,
    .debuggerCommand tabId "Target.getTargetInfo",
    .forwardEvent "Target.attachedToTarget" (some sessionId)])

/-- `TabRegistry.detachAll` (`TabManager.ts`): detach the debugger from every
tracked tab (failures swallowed), then clear both maps. -/
def detachAll (s : TabRegistryState) : TabRegistryState × List ExtOutput :=
  ({ s with tabs := [], childSessions := [] },
   s.tabs.map (fun kv => .debuggerDetach kv.1))

/-- The connection lifecycle events of `ConnectionManager.ts`. -/
inductive ConnectionEvent where
  | Connected
  | Disconnected (reason : Option String)
deriving Repr, DecidableEq

/-- The `processEvents` loop of the background script: a `Disconnected`
event triggers `detachAll`; everything else is a no-op. -/
def processConnectionEvent (s : TabRegistryState) (e : ConnectionEvent) :
    TabRegistryState × List ExtOutput :=
  match e with
  | .Disconnected _ => detachAll s
  | .Connected => (s, [])

/-- Result of one routed command (`CDPRouter.handleCommand`): either the
returned value or a thrown error message. -/
inductive CmdResult where
  | ok (sessionId : String)
  | err (msg : String)
deriving Repr, DecidableEq

/-- `VibeBrowser.attachTab` (`CDPRouter.ts`): a falsy or non-numeric
`params.tabId` is rejected; a tab whose stored `TabInfo` has a truthy
`sessionId` is returned as-is without touching the debugger; otherwise
`tabs.attach` runs.  (`none` models an absent `params.tabId`; `some 0` is
falsy in the source's `!tabId` check.) -/
def attachTab (s : TabRegistryState) (tabIdParam : Option Int)
    (oracle : TargetInfo) : TabRegistryState × CmdResult × List ExtOutput :=
  match tabIdParam with
  | none => (s, .err "VibeBrowser.attachTab requires params.tabId (number)", [])
  | some tabId =>
      if tabId == 0 then
        (s, .err "VibeBrowser.attachTab requires params.tabId (number)", [])
      else
        let existingSession : Option String :=
          match s.tabs.lookup tabId with
          | some info =>
              match info.sessionId with
              | some sid => if sid == "" then none else some sid
              | none => none
          | none => none
        match existingSession with
        | some sid => (s, .ok sid, [])
        | none =>
            let (s', sid, outs) := tabAttach s tabId oracle
            (s', .ok sid, outs)

/-! ### Extension side: relay connection (`ConnectionManager.ts`) -/

/-- State of the `Connection` service: `wsRef`, `maintainRef`, `fiberRef`,
the `eventsQ` contents in offer order, and the set of sockets on which
`close()` was invoked (whose browser `close` events are still due). -/
structure ConnState where
  ws : Option Nat := none
  maintaining : Bool := false
  fiber : Option Nat := none
  events : List ConnectionEvent := []
  closedByUs : List Nat := []
deriving Repr, DecidableEq

/-- `closeSocket`: `ws.close()` on the current socket (its browser close
event remains due) and `wsRef := null`. -/
def closeSocket (s : ConnState) : ConnState :=
  match s.ws with
  | some w => { s with ws := none, closedByUs := s.closedByUs ++ [w] }
  | none => { s with ws := none }

/-- `Connection.disconnect`: stop maintenance, interrupt the reconnect
fiber, close the socket, and offer one `Disconnected("manual")` event. -/
def connDisconnect (s : ConnState) : ConnState :=
  let s1 := { s with maintaining := false, fiber := none }
  let s2 := closeSocket s1
  { s2 with events := s2.events ++ [.Disconnected (some "manual")] }

/-- The `socket.onclose` handler installed on the active socket after a
successful connect: `wsRef := null` and offer a `Disconnected` event with
the browser-supplied reason.  It fires once for every socket that closes,
including one closed locally by `closeSocket`. -/
def socketOnClose (s : ConnState) (reason : String) : ConnState :=
  { s with ws := none, events := s.events ++ [.Disconnected (some reason)] }

/-- Number of `Disconnected` events in an event-queue trace. -/
def countDisconnected (events : List ConnectionEvent) : Nat :=
  (events.filter (fun e => match e with
    | .Disconnected _ => true
    | .Connected => false)).length

/-! ## Helper lemmas -/

theorem lookup_eraseKey_self {α β : Type} [BEq α] [LawfulBEq α]
    (k : α) (l : List (α × β)) : (eraseKey k l).lookup k = none := by
  induction l with
  | nil => rfl
  | cons kv t ih =>
      by_cases h : kv.1 = k
      · simpa [eraseKey, List.filter_cons, h] using ih
      · have h1 : (kv.1 == k) = false := beq_eq_false_iff_ne.mpr h
        have h2 : (k == kv.1) = false := beq_eq_false_iff_ne.mpr (Ne.symm h)
        simpa [eraseKey, List.filter_cons, h1, List.lookup, h2] using ih

/-- Characterization of `parseHttpCommandBody`: either it produces a command
whose id is the current `state.nextId` (and only `nextId` changes, by one),
or it rejects the body and leaves the state untouched. -/
theorem parseHttpCommandBody_spec (st : RelayState) (body : Json) :
    (∃ cmd, parseHttpCommandBody st body
        = ({ st with nextId := st.nextId + 1 }, some cmd) ∧ cmd.id = st.nextId) ∨
    parseHttpCommandBody st body = (st, none) := by
  unfold parseHttpCommandBody makeCommand
  repeat' split
  all_goals first
    | (right; rfl)
    | (left
       rename_i heq
       cases heq
       exact ⟨_, rfl, rfl⟩)

/-- Ids issued over a whole sequence of `/command` dispatches are bounded by
the counter and strictly increasing in dispatch order. -/
theorem dispatchAll_spec (st : RelayState) (bodies : List Json) :
    st.nextId ≤ (dispatchAll st bodies).1.nextId ∧
    (∀ c ∈ (dispatchAll st bodies).2,
        st.nextId ≤ c.id ∧ c.id < (dispatchAll st bodies).1.nextId) ∧
    ((dispatchAll st bodies).2.map ExtensionCommandMessage.id).Pairwise (· < ·) := by
  induction bodies generalizing st with
  | nil => simp [dispatchAll]
  | cons b rest ih =>
      rcases parseHttpCommandBody_spec st b with ⟨cmd, heq, hid⟩ | heq
      · have IH := ih { st with nextId := st.nextId + 1 }
        obtain ⟨ihmono, ihmem, ihpw⟩ := IH
        simp only [dispatchAll, heq] at *
        refine ⟨le_trans (by omega) ihmono, ?_, ?_⟩
        · intro c hc
          rcases List.mem_append.mp hc with hl | hr
          · simp only [List.mem_singleton] at hl
            subst hl
            exact ⟨le_of_eq hid.symm, by omega⟩
          · have := ihmem c hr
            exact ⟨by omega, this.2⟩
        · simp only [List.map_append, List.map_cons, List.map_nil,
            List.singleton_append, List.pairwise_cons]
          refine ⟨?_, ihpw⟩
          intro x hx
          rcases List.mem_map.mp hx with ⟨c, hc, hcx⟩
          have := ihmem c hc
          omega
      · simpa [dispatchAll, heq] using ih st

/-! ## Claims -/

/-- C1: every correlation id the relay assigns to a dispatched command is
fresh (the current `state.nextId`, which only `makeCommand` advances) and
the ids issued across any sequence of dispatches are strictly increasing,
hence unique for the process lifetime; a caller-supplied id in the HTTP body
never reaches the dispatched command (`makeCommand` ignores it and every
parse branch assigns `state.nextId`). -/
theorem relay_ids_fresh_and_unique (st : RelayState) (bodies : List Json) :
    (∀ body st' cmd, parseHttpCommandBody st body = (st', some cmd) →
        cmd.id = st.nextId ∧ st'.nextId = st.nextId + 1) ∧
    (∀ callerId callerId' m p,
        makeCommand st callerId m p = makeCommand st callerId' m p) ∧
    ((dispatchAll st bodies).2.map ExtensionCommandMessage.id).Pairwise (· < ·) := by
  refine ⟨?_, fun _ _ _ _ => rfl, (dispatchAll_spec st bodies).2.2⟩
  intro body st' cmd h
  rcases parseHttpCommandBody_spec st body with ⟨cmd0, heq, hid⟩ | heq
  · rw [h] at heq
    injection heq with h1 h2
    injection h2 with h2
    constructor
    · rw [h2]; exact hid
    · rw [h1]
  · rw [h] at heq
    injection heq with h1 h2
    exact Option.noConfusion h2

/-- Witness for C1 at two concrete bodies: the first carries a caller id
`999` and still receives relay id 1; the second receives id 2. -/
theorem relay_ids_fresh_and_unique_witness :
    ((dispatchAll {} [
        Json.obj [("id", Json.num 999), ("method", Json.str "cdp"),
                  ("params", Json.obj [("method", Json.str "Page.navigate")])],
        Json.obj [("method", Json.str "tab"),
                  ("params", Json.obj [("method", Json.str "tab.countTabs")])]
      ]).2.map ExtensionCommandMessage.id).Pairwise (· < ·) ∧
    ((dispatchAll {} [
        Json.obj [("id", Json.num 999), ("method", Json.str "cdp"),
                  ("params", Json.obj [("method", Json.str "Page.navigate")])],
        Json.obj [("method", Json.str "tab"),
                  ("params", Json.obj [("method", Json.str "tab.countTabs")])]
      ]).2.map ExtensionCommandMessage.id) = [1, 2] :=
  ⟨(relay_ids_fresh_and_unique {} _).2.2, rfl⟩

/-- C4: with no open extension socket, a dispatch resolves immediately with
the not-connected error and the state is untouched — in particular no
pending entry is registered and no timeout timer is created. -/
theorem not_connected_dispatch_immediate (st : RelayState)
    (cmd : ExtensionCommandMessage) (timeoutMs : Nat) (hint : Bool)
    (h : st.extensionOpen = false) :
    sendCommandToExtension st cmd timeoutMs hint
      = (st, [.resolve cmd.id { id := cmd.id, error := some NOT_CONNECTED_ERROR }]) ∧
    (sendCommandToExtension st cmd timeoutMs hint).1.pending = st.pending ∧
    (sendCommandToExtension st cmd timeoutMs hint).1.timers = st.timers := by
  have hcase : st.extension = none ∨
      ∃ e, st.extension = some e ∧ st.openSockets.contains e = false := by
    unfold RelayState.extensionOpen at h
    cases hext : st.extension with
    | none => exact Or.inl rfl
    | some e => rw [hext] at h; exact Or.inr ⟨e, rfl, h⟩
  rcases hcase with hext | ⟨e, hext, hopen⟩
  · simp [sendCommandToExtension, hext]
  · have hmem : e ∉ st.openSockets := by simpa using hopen
    simp [sendCommandToExtension, hext, hmem]

/-- Witness for C4: dispatching `tab.getActiveTarget` on the initial state
(no extension socket) resolves at once with the not-connected error. -/
theorem not_connected_dispatch_immediate_witness :
    sendCommandToExtension {} ⟨1, .tab, { method := "tab.getActiveTarget" }⟩
        REQUEST_TIMEOUT_MS true
      = ({}, [.resolve 1 { id := 1, error := some NOT_CONNECTED_ERROR }]) :=
  (not_connected_dispatch_immediate {} ⟨1, .tab, { method := "tab.getActiveTarget" }⟩
    REQUEST_TIMEOUT_MS true rfl).1

/-- C2: when the current extension socket closes, every pending command is
resolved with the disconnection error and the pending table becomes empty;
on the extension side the induced `Disconnected` event clears the tab map
and the child-session map of the registry. -/
theorem disconnect_fails_pending_and_clears_registry
    (st : RelayState) (ws : Nat) (s : TabRegistryState) (reason : Option String)
    (hcur : st.extension = some ws) :
    (handleWsClose st ws).1.pending = [] ∧
    (∀ kv ∈ st.pending,
        RelayOutput.resolve kv.1
          { id := kv.1, error := some "Extension disconnected before command completed." }
          ∈ (handleWsClose st ws).2) ∧
    (processConnectionEvent s (.Disconnected reason)).1.tabs = [] ∧
    (processConnectionEvent s (.Disconnected reason)).1.childSessions = [] := by
  refine ⟨?_, ?_, rfl, rfl⟩
  · simp [handleWsClose, hcur, failAllPending]
  · intro kv hkv
    simp only [handleWsClose, hcur, ne_eq, not_true_eq_false, if_false,
      failAllPending, List.mem_append]
    left
    exact List.mem_map_of_mem _ hkv

/-- Witness for C2 with one pending command and one tracked tab with a child
session. -/
theorem disconnect_fails_pending_and_clears_registry_witness :
    (handleWsClose
        { extension := some 5, openSockets := [5],
          pending := [(3, ⟨0⟩)], timers := [(0, ⟨3, 15000, true⟩)] } 5).1.pending = [] ∧
    RelayOutput.resolve 3
        { id := 3, error := some "Extension disconnected before command completed." }
      ∈ (handleWsClose
        { extension := some 5, openSockets := [5],
          pending := [(3, ⟨0⟩)], timers := [(0, ⟨3, 15000, true⟩)] } 5).2 ∧
    (processConnectionEvent
        { tabs := [(7, { sessionId := some "pw-tab-1", targetId := some "T7",
                         state := .connected })],
          childSessions := [("child-1", 7)], nextSessionId := 2 }
        (.Disconnected (some "1006"))).1.tabs = [] ∧
    (processConnectionEvent
        { tabs := [(7, { sessionId := some "pw-tab-1", targetId := some "T7",
                         state := .connected })],
          childSessions := [("child-1", 7)], nextSessionId := 2 }
        (.Disconnected (some "1006"))).1.childSessions = [] := by
  have h := disconnect_fails_pending_and_clears_registry
    { extension := some 5, openSockets := [5],
      pending := [(3, ⟨0⟩)], timers := [(0, ⟨3, 15000, true⟩)] } 5
    { tabs := [(7, { sessionId := some "pw-tab-1", targetId := some "T7",
                     state := .connected })],
      childSessions := [("child-1", 7)], nextSessionId := 2 }
    (some "1006") rfl
  exact ⟨h.1, h.2.1 (3, ⟨0⟩) (by simp), h.2.2.1, h.2.2.2⟩

/-- Core of the timeout property: dispatching over an open socket registers a
pending entry and a timer, and when that timer fires the caller is resolved
with the synthetic timeout error and the entry is gone. -/
theorem sendCommand_fireTimeout (st : RelayState) (cmd : ExtensionCommandMessage)
    (timeoutMs : Nat) (hint : Bool) (hopen : st.extensionOpen = true) :
    (fireTimeout (sendCommandToExtension st cmd timeoutMs hint).1 st.nextTimer).2
      = [.resolve cmd.id { id := cmd.id, error := some (makeTimeoutError timeoutMs hint) }] ∧
    (fireTimeout (sendCommandToExtension st cmd timeoutMs hint).1 st.nextTimer).1.pending.lookup cmd.id
      = none := by
  have hcase : ∃ e, st.extension = some e ∧ st.openSockets.contains e = true := by
    unfold RelayState.extensionOpen at hopen
    cases hext : st.extension with
    | none => rw [hext] at hopen; exact absurd hopen (by simp)
    | some e => rw [hext] at hopen; exact ⟨e, rfl, hopen⟩
  obtain ⟨e, hext, hopen'⟩ := hcase
  have hmem : e ∈ st.openSockets := by simpa using hopen'
  constructor
  · simp [sendCommandToExtension, hext, hmem, fireTimeout, List.lookup,
      respondPending]
  · simp [sendCommandToExtension, hext, hmem, fireTimeout, List.lookup,
      respondPending, eraseKey, lookup_eraseKey_self]
    exact fun a b _ hne h => hne h.symm

/-- Inversion for `handleHttpCommandStep` when a command was dispatched. -/
theorem handleHttpCommandStep_some (st : RelayState) (body : Json)
    (st1 : RelayState) (c : ExtensionCommandMessage) (outs : List RelayOutput)
    (hstep : handleHttpCommandStep st body = (st1, some c, outs)) :
    st1 = (sendCommandToExtension (parseHttpCommandBody st body).1 c
            REQUEST_TIMEOUT_MS true).1 ∧
    (parseHttpCommandBody st body).2 = some c := by
  unfold handleHttpCommandStep at hstep
  cases hp : parseHttpCommandBody st body with
  | mk st' copt =>
      rw [hp] at hstep
      cases copt with
      | none => simp at hstep
      | some c0 =>
          simp only at hstep
          injection hstep with hA hB
          injection hB with hB hC
          injection hB with hB
          subst hB hA
          simp

/-- C3: a dispatched command with no downstream response resolves, when its
timer fires, with the timeout error carrying the configured milliseconds,
and its pending entry is removed; `/command` dispatches use the general tier
(15000 ms by default) with the blocked-extension hint, whose full text is
spelled out. -/
theorem command_timeout_resolves_and_clears (st : RelayState)
    (cmd : ExtensionCommandMessage) (timeoutMs : Nat) (hint : Bool)
    (hopen : st.extensionOpen = true) :
    ((fireTimeout (sendCommandToExtension st cmd timeoutMs hint).1 st.nextTimer).2
        = [.resolve cmd.id { id := cmd.id, error := some (makeTimeoutError timeoutMs hint) }] ∧
     (fireTimeout (sendCommandToExtension st cmd timeoutMs hint).1 st.nextTimer).1.pending.lookup cmd.id
        = none) ∧
    (∀ body st1 c outs, handleHttpCommandStep st body = (st1, some c, outs) →
        (fireTimeout st1 st.nextTimer).2
          = [.resolve c.id { id := c.id, error := some (makeTimeoutError REQUEST_TIMEOUT_MS true) }] ∧
        (fireTimeout st1 st.nextTimer).1.pending.lookup c.id = none) ∧
    makeTimeoutError REQUEST_TIMEOUT_MS true
      = "Timeout after 15000ms. The browser extension may be blocked. Manually refresh the extension and retry." := by
  refine ⟨sendCommand_fireTimeout st cmd timeoutMs hint hopen, ?_, rfl⟩
  intro body st1 c outs hstep
  obtain ⟨hst1, hc⟩ := handleHttpCommandStep_some st body st1 c outs hstep
  rcases parseHttpCommandBody_spec st body with ⟨cmd0, heq, hid⟩ | heq
  · rw [heq] at hst1 hc
    simp only at hst1 hc
    injection hc with hc
    subst hc
    have hopen2 : ({ st with nextId := st.nextId + 1 } : RelayState).extensionOpen = true := by
      simpa [RelayState.extensionOpen] using hopen
    have key := sendCommand_fireTimeout { st with nextId := st.nextId + 1 }
      cmd0 REQUEST_TIMEOUT_MS true hopen2
    rw [hst1]
    simpa using key
  · rw [heq] at hc
    simp at hc

/-- Witness for C3: a `cdp` command dispatched over an open socket times out
to exactly the hinted 15000 ms error and leaves the pending table empty. -/
theorem command_timeout_resolves_and_clears_witness :
    (fireTimeout (sendCommandToExtension
        { extension := some 0, openSockets := [0] }
        ⟨1, .cdp, { method := "Page.enable" }⟩ REQUEST_TIMEOUT_MS true).1 0).2
      = [.resolve 1 { id := 1, error := some "Timeout after 15000ms. The browser extension may be blocked. Manually refresh the extension and retry." }] ∧
    (fireTimeout (sendCommandToExtension
        { extension := some 0, openSockets := [0] }
        ⟨1, .cdp, { method := "Page.enable" }⟩ REQUEST_TIMEOUT_MS true).1 0).1.pending.lookup 1
      = none := by
  have h := (command_timeout_resolves_and_clears
    { extension := some 0, openSockets := [0] }
    ⟨1, .cdp, { method := "Page.enable" }⟩ REQUEST_TIMEOUT_MS true rfl).1
  exact ⟨by rw [h.1]; rfl, h.2⟩

/-- C10: when a second extension socket connects while one is current and
open, the relay fails every pending command with the reconnect error,
closes and discards the old socket, and installs the new one; a later close
event from the replaced (stale) socket leaves the current connection
reference, the keepalive, and the pending table untouched and broadcasts
nothing. -/
theorem extension_socket_replacement (st : RelayState) (oldWs newWs : Nat)
    (hcur : st.extension = some oldWs)
    (hopen : oldWs ∈ st.openSockets)
    (hne : newWs ≠ oldWs) :
    (handleWsOpen st newWs).1.extension = some newWs ∧
    (handleWsOpen st newWs).1.pending = [] ∧
    (∀ kv ∈ st.pending,
        RelayOutput.resolve kv.1 { id := kv.1, error := some "Extension reconnected; previous in-flight commands were canceled." }
          ∈ (handleWsOpen st newWs).2) ∧
    RelayOutput.closeSocket oldWs ∈ (handleWsOpen st newWs).2 ∧
    (handleWsClose (handleWsOpen st newWs).1 oldWs).1.extension
      = (handleWsOpen st newWs).1.extension ∧
    (handleWsClose (handleWsOpen st newWs).1 oldWs).1.extensionKeepaliveId
      = (handleWsOpen st newWs).1.extensionKeepaliveId ∧
    (handleWsClose (handleWsOpen st newWs).1 oldWs).1.pending
      = (handleWsOpen st newWs).1.pending ∧
    (handleWsClose (handleWsOpen st newWs).1 oldWs).2 = [] := by
  have hopen' : st.openSockets.contains oldWs = true := by simpa using hopen
  have hout : (handleWsOpen st newWs).2
      = ((st.pending.map fun kv => RelayOutput.resolve kv.1 { id := kv.1, error := some "Extension reconnected; previous in-flight commands were canceled." })
          ++ [RelayOutput.closeSocket oldWs])
        ++ sseBroadcast (handleWsOpen st newWs).1 (.status true) := by
    simp [handleWsOpen, hcur, hopen, hopen', failAllPending, sseBroadcast]
  refine ⟨?_, ?_, ?_, ?_, ?_, ?_, ?_, ?_⟩
  · simp [handleWsOpen, hcur, hopen, hopen', failAllPending]
  · simp [handleWsOpen, hcur, hopen, hopen', failAllPending]
  · intro kv hkv
    rw [hout]
    exact List.mem_append_left _ (List.mem_append_left _ (List.mem_map_of_mem _ hkv))
  · rw [hout]
    exact List.mem_append_left _ (List.mem_append_right _ (by simp))
  · simp [handleWsClose, handleWsOpen, hcur, hopen, hopen', failAllPending, hne]
  · simp [handleWsClose, handleWsOpen, hcur, hopen, hopen', failAllPending, hne]
  · simp [handleWsClose, handleWsOpen, hcur, hopen, hopen', failAllPending, hne]
  · simp [handleWsClose, handleWsOpen, hcur, hopen, hopen', failAllPending, hne]

/-- Witness for C10: socket 9 replaces open socket 5 while command 3 is
pending; the stale close of socket 5 afterwards is a no-op. -/
theorem extension_socket_replacement_witness :
    (handleWsOpen { extension := some 5, openSockets := [5, 9], pending := [(3, ⟨0⟩)], timers := [(0, ⟨3, 15000, true⟩)], sseClients := [11] } 9).1.extension = some 9 ∧
    (handleWsOpen { extension := some 5, openSockets := [5, 9], pending := [(3, ⟨0⟩)], timers := [(0, ⟨3, 15000, true⟩)], sseClients := [11] } 9).1.pending = [] ∧
    RelayOutput.resolve 3 { id := 3, error := some "Extension reconnected; previous in-flight commands were canceled." }
      ∈ (handleWsOpen { extension := some 5, openSockets := [5, 9], pending := [(3, ⟨0⟩)], timers := [(0, ⟨3, 15000, true⟩)], sseClients := [11] } 9).2 ∧
    (handleWsClose (handleWsOpen { extension := some 5, openSockets := [5, 9], pending := [(3, ⟨0⟩)], timers := [(0, ⟨3, 15000, true⟩)], sseClients := [11] } 9).1 5).2 = [] := by
  have h := extension_socket_replacement
    { extension := some 5, openSockets := [5, 9], pending := [(3, ⟨0⟩)],
      timers := [(0, ⟨3, 15000, true⟩)], sseClients := [11] }
    5 9 rfl (by simp) (by decide)
  exact ⟨h.1, h.2.1, h.2.2.1 (3, ⟨0⟩) (by simp), h.2.2.2.2.2.2.2⟩

/-- C7: a response frame from the extension whose id matches no pending
entry is not dropped: it is broadcast to every SSE subscriber as an
orphan-response diagnostic, and the relay state is unchanged. -/
theorem orphan_response_broadcast (st : RelayState) (p : Json)
    (hresp : isExtensionResponseMessage p = true)
    (horphan : st.pending.lookup (jsonIdOf p) = none) :
    handleExtensionMessage st (some p)
      = (st, st.sseClients.map (fun c => RelayOutput.sseDeliver c
          (.orphanResponse ((p.getField "result").getD Json.null)
            (((jsonErrOf p).map Json.str).getD Json.null)))) := by
  simp [handleExtensionMessage, hresp, horphan, sseBroadcast]

/-- Witness for C7: a response with unknown id 42 reaches both subscribers
as an orphan-response frame. -/
theorem orphan_response_broadcast_witness :
    handleExtensionMessage { sseClients := [1, 2] }
        (some (Json.obj [("id", Json.num 42), ("result", Json.str "late")]))
      = ({ sseClients := [1, 2] },
         [RelayOutput.sseDeliver 1 (.orphanResponse (Json.str "late") Json.null),
          RelayOutput.sseDeliver 2 (.orphanResponse (Json.str "late") Json.null)]) := by
  have h := orphan_response_broadcast { sseClients := [1, 2] }
    (Json.obj [("id", Json.num 42), ("result", Json.str "late")]) rfl rfl
  rw [h]
  rfl

/-- C5: the health check is layered.  With the extension socket not open,
no probe is dispatched and the payload is unhealthy with the skip detail and
`null` probe verdicts.  With it open, the `tab.getActiveTarget` probe is
dispatched under the short timeout tier without the blocked hint; a probe
response carrying a (truthy) error is classified with
`browserBlocked = isTimeoutError(error)` — `true` exactly for a timeout —
and any non-error response without a usable active target is classified not
responsive without the blocked label. -/
theorem health_check_layered (st : RelayState) (resp : ExtensionResponseMessage) :
    (st.extensionOpen = false →
        handleHealth st resp
          = { status := 503, ok := false, relayReachable := true,
              extensionConnected := false, browserResponsive := none,
              browserBlocked := none, probeOk := false,
              probeTimeoutMs := HEALTH_PROBE_TIMEOUT_MS,
              probeMessage := "Skipped because extension is not connected.",
              action := some "Open the extension popup, switch it to Active, then retry." } ∧
        handleHealthStep st = (st, none, [])) ∧
    (st.extensionOpen = true →
        ((handleHealthStep st).2.1
            = some { id := st.nextId, method := .tab,
                     params := { method := "tab.getActiveTarget" } } ∧
         (handleHealthStep st).1.timers.lookup st.nextTimer
            = some ⟨st.nextId, HEALTH_PROBE_TIMEOUT_MS, false⟩) ∧
        (errTruthy resp.error = true →
            (handleHealth st resp).browserBlocked = some (isTimeoutError resp.error) ∧
            (handleHealth st resp).browserResponsive = some false ∧
            (handleHealth st resp).ok = false) ∧
        (errTruthy resp.error = false → healthProbeTargetOk resp.result = false →
            (handleHealth st resp).browserResponsive = some false ∧
            (handleHealth st resp).browserBlocked = some false ∧
            (handleHealth st resp).ok = false)) := by
  constructor
  · intro h
    constructor
    · simp [handleHealth, h]
    · simp [handleHealthStep, h]
  · intro h
    refine ⟨?_, ?_, ?_⟩
    · have hcase : ∃ e, st.extension = some e ∧ e ∈ st.openSockets := by
        unfold RelayState.extensionOpen at h
        cases hext : st.extension with
        | none => rw [hext] at h; exact absurd h (by simp)
        | some e => rw [hext] at h; exact ⟨e, rfl, by simpa using h⟩
      obtain ⟨e, hext, hmem⟩ := hcase
      constructor
      · simp [handleHealthStep, h, makeCommand, sendCommandToExtension, hext, hmem]
      · simp [handleHealthStep, h, makeCommand, sendCommandToExtension, hext, hmem,
          List.lookup]
    · intro herr
      refine ⟨?_, ?_, ?_⟩ <;>
        simp [handleHealth, h, classifyHealthProbe, herr]
    · intro herr htarget
      refine ⟨?_, ?_, ?_⟩ <;>
        simp [handleHealth, h, classifyHealthProbe, herr, htarget]

/-- Witness for C5: the three classifications at concrete states — closed
socket; open socket with a timed-out probe; open socket with a probe result
carrying no target. -/
theorem health_check_layered_witness :
    (handleHealth {} { id := 1 }).extensionConnected = false ∧
    (handleHealth {} { id := 1 }).probeMessage = "Skipped because extension is not connected." ∧
    handleHealthStep {} = ({}, none, []) ∧
    (handleHealth { extension := some 0, openSockets := [0] }
        { id := 1, error := some "Timeout after 3000ms" }).browserBlocked = some true ∧
    (handleHealth { extension := some 0, openSockets := [0] }
        { id := 1, error := some "Target closed" }).browserBlocked = some false ∧
    (handleHealth { extension := some 0, openSockets := [0] }
        { id := 1, error := some "Target closed" }).browserResponsive = some false ∧
    (handleHealth { extension := some 0, openSockets := [0] }
        { id := 1, result := some (Json.obj []) }).browserResponsive = some false ∧
    (handleHealth { extension := some 0, openSockets := [0] }
        { id := 1, result := some (Json.obj []) }).browserBlocked = some false := by
  have hclosed := (health_check_layered {} { id := 1 }).1 rfl
  have htimeout := ((health_check_layered { extension := some 0, openSockets := [0] }
    { id := 1, error := some "Timeout after 3000ms" }).2 rfl).2.1 rfl
  have hrej := ((health_check_layered { extension := some 0, openSockets := [0] }
    { id := 1, error := some "Target closed" }).2 rfl).2.1 rfl
  have hnotarget := ((health_check_layered { extension := some 0, openSockets := [0] }
    { id := 1, result := some (Json.obj []) }).2 rfl).2.2 rfl rfl
  refine ⟨by rw [hclosed.1], by rw [hclosed.1], hclosed.2, ?_, ?_, hrej.2.1, hnotarget.1, hnotarget.2.1⟩
  · rw [htimeout.1]; decide
  · rw [hrej.1]; decide

/-- C6 counterexample: `isExtensionResponseMessage` accepts `error: ""`, and
for that response the relay replies with HTTP 200 (and `ok: true`, `error:
""`), although an error string is present that is neither the not-connected
error nor a timeout error — the claim's "every other error → 502" fails at
the empty error string, which `commandErrorToStatus` treats as no error
(JavaScript truthiness). -/
theorem http_status_mapping_empty_error_counterexample :
    (httpCommandReply { id := 1, error := some "" }).1 = 200 ∧
    (some "" : Option String) ≠ none ∧
    (some "" : Option String) ≠ some NOT_CONNECTED_ERROR ∧
    isTimeoutError (some "") = false ∧
    (200 : Nat) ≠ 502 := by
  exact ⟨rfl, by simp, by simp [NOT_CONNECTED_ERROR], rfl, by decide⟩

/-- C6 amended: a `/command` response built from a bridged command's
resolution always has the `{ok, result, error}` shape, and the status is a
function of the error string under JavaScript truthiness: an absent or
empty error yields 200 (with `ok: true`), the not-connected error 503, a
non-empty error with the timeout prefix 504, and every other non-empty
error 502. -/
theorem http_command_reply_shape_and_status (msg : ExtensionResponseMessage) :
    (httpCommandReply msg).2
      = Json.obj [("ok", Json.bool (!errTruthy msg.error)),
                  ("result", msg.result.getD Json.null),
                  ("error", ((msg.error.map Json.str).getD Json.null))] ∧
    (errTruthy msg.error = false → (httpCommandReply msg).1 = 200) ∧
    (msg.error = some NOT_CONNECTED_ERROR → (httpCommandReply msg).1 = 503) ∧
    (errTruthy msg.error = true → isTimeoutError msg.error = true →
        (httpCommandReply msg).1 = 504) ∧
    (errTruthy msg.error = true → isTimeoutError msg.error = false →
        msg.error ≠ some NOT_CONNECTED_ERROR → (httpCommandReply msg).1 = 502) := by
  refine ⟨rfl, ?_, ?_, ?_, ?_⟩
  · intro hE
    simp [httpCommandReply, commandErrorToStatus, hE]
  · intro heq
    have hE : errTruthy (some NOT_CONNECTED_ERROR) = true := by rfl
    simp [httpCommandReply, commandErrorToStatus, heq, hE]
  · intro hE hT
    have hne : msg.error ≠ some NOT_CONNECTED_ERROR := by
      intro heq
      rw [heq] at hT
      exact absurd hT (by decide)
    have hb : (msg.error == some NOT_CONNECTED_ERROR) = false :=
      beq_eq_false_iff_ne.mpr hne
    simp [httpCommandReply, commandErrorToStatus, hE, hT, hb]
  · intro hE hT hne
    have hb : (msg.error == some NOT_CONNECTED_ERROR) = false :=
      beq_eq_false_iff_ne.mpr hne
    simp [httpCommandReply, commandErrorToStatus, hE, hT, hb]

/-- Witness for the amended C6 at the four concrete error shapes. -/
theorem http_command_reply_shape_and_status_witness :
    (httpCommandReply { id := 1, result := some (Json.str "v") }).1 = 200 ∧
    (httpCommandReply { id := 1, error := some NOT_CONNECTED_ERROR }).1 = 503 ∧
    (httpCommandReply { id := 1, error := some "Timeout after 15000ms" }).1 = 504 ∧
    (httpCommandReply { id := 1, error := some "Target closed" }).1 = 502 := by
  refine ⟨?_, ?_, ?_, ?_⟩
  · exact (http_command_reply_shape_and_status { id := 1, result := some (Json.str "v") }).2.1 rfl
  · exact (http_command_reply_shape_and_status { id := 1, error := some NOT_CONNECTED_ERROR }).2.2.1 rfl
  · exact (http_command_reply_shape_and_status { id := 1, error := some "Timeout after 15000ms" }).2.2.2.1 rfl rfl
  · exact (http_command_reply_shape_and_status { id := 1, error := some "Target closed" }).2.2.2.2 rfl rfl (by simp [NOT_CONNECTED_ERROR])

/-- Number of `chrome.debugger.attach` calls in a registry step's outputs. -/
def countDebuggerAttaches (outs : List ExtOutput) : Nat :=
  (outs.filter (fun o => match o with
    | .debuggerAttach _ => true
    | _ => false)).length

/-- A freshly minted `pw-tab-<n>` session id is never the empty string, so
it is truthy in the `existing?.sessionId` check. -/
theorem pwTab_ne_blank (n : Nat) : (("pw-tab-" ++ toString n) == "") = false := by
  rw [beq_eq_false_iff_ne]
  intro h
  have hlen := congrArg String.length h
  rw [String.length_append] at hlen
  have h7 : ("pw-tab-" : String).length = 7 := rfl
  have h0 : ("" : String).length = 0 := rfl
  omega

theorem filter_eraseKey {α β : Type} [BEq α] (k : α) (l : List (α × β)) :
    (eraseKey k l).filter (fun kv => kv.1 == k) = [] := by
  induction l with
  | nil => rfl
  | cons kv t ih =>
      by_cases h : (kv.1 == k) = true
      · simpa [eraseKey, List.filter_cons, h] using ih
      · have h' : (kv.1 == k) = false := by simpa using h
        simpa [eraseKey, List.filter_cons, h'] using ih

/-- C8: attach is idempotent per tab.  Attaching a fresh tab mints
`pw-tab-<n>` and issues exactly one `chrome.debugger.attach`; a second
`VibeBrowser.attachTab` for the same tab (commands are processed one at a
time by the background's sequential message loop, so a request issued while
the first is completing is handled after it) returns the same session id,
leaves the registry unchanged, performs no debugger call, and the registry
holds exactly one entry for the tab. -/
theorem attach_idempotent_per_tab (s0 : TabRegistryState) (tabId : Int)
    (o1 o2 : TargetInfo)
    (hfresh : s0.tabs.lookup tabId = none) (hnz : (tabId == 0) = false) :
    (attachTab s0 (some tabId) o1).2.1
      = .ok ("pw-tab-" ++ toString s0.nextSessionId) ∧
    countDebuggerAttaches (attachTab s0 (some tabId) o1).2.2 = 1 ∧
    (attachTab (attachTab s0 (some tabId) o1).1 (some tabId) o2).2.1
      = (attachTab s0 (some tabId) o1).2.1 ∧
    (attachTab (attachTab s0 (some tabId) o1).1 (some tabId) o2).1
      = (attachTab s0 (some tabId) o1).1 ∧
    (attachTab (attachTab s0 (some tabId) o1).1 (some tabId) o2).2.2 = [] ∧
    ((attachTab s0 (some tabId) o1).1.tabs.filter
        (fun kv => kv.1 == tabId)).length = 1 := by
  refine ⟨?_, ?_, ?_, ?_, ?_, ?_⟩
  · simp [attachTab, hnz, hfresh, tabAttach]
  · simp [attachTab, hnz, hfresh, tabAttach, countDebuggerAttaches]
  · simp [attachTab, hnz, hfresh, tabAttach, setTab, List.lookup, pwTab_ne_blank]
  · simp [attachTab, hnz, hfresh, tabAttach, setTab, List.lookup, pwTab_ne_blank]
  · simp [attachTab, hnz, hfresh, tabAttach, setTab, List.lookup, pwTab_ne_blank]
  · simp [attachTab, hnz, hfresh, tabAttach, setTab, List.filter_cons,
      filter_eraseKey]

/-- Witness for C8: attaching tab 12 twice yields `pw-tab-1` both times, one
debugger attach in total, and a single registry entry. -/
theorem attach_idempotent_per_tab_witness :
    (attachTab {} (some 12) { targetId := "T12" }).2.1 = .ok "pw-tab-1" ∧
    countDebuggerAttaches (attachTab {} (some 12) { targetId := "T12" }).2.2 = 1 ∧
    (attachTab (attachTab {} (some 12) { targetId := "T12" }).1 (some 12)
        { targetId := "T12b" }).2.1 = .ok "pw-tab-1" ∧
    (attachTab (attachTab {} (some 12) { targetId := "T12" }).1 (some 12)
        { targetId := "T12b" }).2.2 = [] ∧
    ((attachTab {} (some 12) { targetId := "T12" }).1.tabs.filter
        (fun kv => kv.1 == 12)).length = 1 := by
  have h := attach_idempotent_per_tab {} 12 { targetId := "T12" }
    { targetId := "T12b" } rfl (by decide)
  exact ⟨h.1, h.2.1, by rw [h.2.2.1, h.1]; rfl, h.2.2.2.2.1, h.2.2.2.2.2⟩

/-- C9 counterexample: calling `disconnect()` while a socket is open offers
`Disconnected("manual")`, and the closed socket's own `onclose` handler then
offers a second `Disconnected` event — two events for one call, not exactly
one. -/
theorem disconnect_two_events_counterexample :
    countDisconnected (socketOnClose
        (connDisconnect { ws := some 0, maintaining := true, fiber := some 7 })
        "1006").events = 2 ∧
    0 ∈ (connDisconnect { ws := some 0, maintaining := true, fiber := some 7 }).closedByUs ∧
    (2 : Nat) ≠ 1 := by
  refine ⟨rfl, by simp [connDisconnect, closeSocket], by decide⟩

/-- C9 amended: `disconnect()` stops maintenance (clears the maintain flag
and the reconnect fiber), closes the active channel if any, and itself
enqueues exactly one `Disconnected("manual")` event — so at least one event
is always emitted; but when an open channel existed, that channel's close
handler enqueues one additional `Disconnected` event, so a single call
yields two events in total. -/
theorem disconnect_behavior (s : ConnState) :
    (connDisconnect s).maintaining = false ∧
    (connDisconnect s).fiber = none ∧
    (connDisconnect s).ws = none ∧
    (connDisconnect s).events = s.events ++ [.Disconnected (some "manual")] ∧
    (∀ w, s.ws = some w → (connDisconnect s).closedByUs = s.closedByUs ++ [w]) ∧
    (s.ws = none → (connDisconnect s).closedByUs = s.closedByUs) ∧
    (∀ w reason, s.ws = some w →
        countDisconnected (socketOnClose (connDisconnect s) reason).events
          = countDisconnected s.events + 2) := by
  refine ⟨?_, ?_, ?_, ?_, ?_, ?_, ?_⟩
  · cases hw : s.ws <;> simp [connDisconnect, closeSocket, hw]
  · cases hw : s.ws <;> simp [connDisconnect, closeSocket, hw]
  · cases hw : s.ws <;> simp [connDisconnect, closeSocket, hw]
  · cases hw : s.ws <;> simp [connDisconnect, closeSocket, hw]
  · intro w hw
    simp [connDisconnect, closeSocket, hw]
  · intro hw
    simp [connDisconnect, closeSocket, hw]
  · intro w reason hw
    simp [connDisconnect, closeSocket, socketOnClose, hw, countDisconnected,
      List.filter_append]

/-- Witness for the amended C9 at a connected state. -/
theorem disconnect_behavior_witness :
    (connDisconnect { ws := some 3, maintaining := true, fiber := some 1 }).maintaining = false ∧
    (connDisconnect { ws := some 3, maintaining := true, fiber := some 1 }).events
      = [.Disconnected (some "manual")] ∧
    (connDisconnect { ws := some 3, maintaining := true, fiber := some 1 }).closedByUs = [3] ∧
    countDisconnected (socketOnClose
        (connDisconnect { ws := some 3, maintaining := true, fiber := some 1 })
        "1001").events = 2 := by
  have h := disconnect_behavior { ws := some 3, maintaining := true, fiber := some 1 }
  exact ⟨h.1, h.2.2.2.1, h.2.2.2.2.1 3 rfl, h.2.2.2.2.2.2 3 "1001" rfl⟩

end Vibe
